import Mathlib

/-
  Shallow embedding of src/src/Boat.c (sailnavsim-core).

  Real-number quantities (C doubles) are modelled as rationals.  The external
  proteus / BoatWindResponse services consumed by Boat.c are modelled as an
  explicit environment of pure functions (`Env`), and the process-wide
  pseudo-random source consulted by updateCourse is modelled as an explicit
  boolean `coin` (`coin = true` corresponds to `rand_r(&_randSeed) % 2 == 0`,
  the "turn left" outcome).  `Boat_advance` mutates the boat in place in C;
  here it returns the updated record.
-/

namespace SailNavSim

/-- proteus_GeoPos: a latitude/longitude pair. -/
structure GeoPos where
  lat : ℚ
  lon : ℚ
deriving DecidableEq

/-- proteus_GeoVec: an angle (degrees) plus magnitude vector. -/
structure GeoVec where
  angle : ℚ
  mag : ℚ
deriving DecidableEq

/-- proteus_OceanData: the fields of it that Boat.c reads (current vector and
ice percentage). -/
structure OceanData where
  current : GeoVec
  ice : ℚ
deriving DecidableEq

/-- The Boat record of Boat.h as used by Boat.c. -/
structure Boat where
  pos : GeoPos
  v : GeoVec
  desiredCourse : ℚ
  distanceTravelled : ℚ
  boatType : ℤ
  stop : Bool
  sailsDown : Bool
  movingToSea : Bool
  setImmediateDesiredCourse : Bool
deriving DecidableEq

/-- The external collaborators of Boat.c: land/water classification, ocean
current/ice lookup (None models `proteus_Ocean_get` returning false),
weather lookup, geodesic position advance, vector addition
(`proteus_GeoVec_add(a, b)` stores the sum in its first argument; here it
returns it), signed shortest angular difference (`proteus_Compass_diff`),
and the per-category BoatWindResponse performance table. -/
structure Env where
  isWater : GeoPos → Bool
  oceanGet : GeoPos → Option OceanData
  weatherGet : GeoPos → GeoVec
  advancePos : GeoPos → GeoVec → GeoPos
  vecAdd : GeoVec → GeoVec → GeoVec
  compassDiff : ℚ → ℚ → ℚ
  courseChangeRate : ℤ → ℚ
  boatSpeed : ℚ → ℚ → ℤ → ℚ
  speedChangeResponse : ℤ → ℚ

/-- #define FORBIDDEN_LAT (0.0001) -/
def FORBIDDEN_LAT : ℚ := 1 / 10000

/-- #define MOVE_TO_WATER_DISTANCE (100) -/
def MOVE_TO_WATER_DISTANCE : ℕ := 100

/-- Boat_new: lines 51-72 of Boat.c. -/
def Boat_new (lat lon : ℚ) (boatType : ℤ) : Boat :=
  { pos := ⟨lat, lon⟩
    v := ⟨0, 0⟩
    desiredCourse := 0
    distanceTravelled := 0
    boatType := boatType
    stop := true
    sailsDown := false
    movingToSea := false
    setImmediateDesiredCourse := true }

/-- stopBoat: lines 274-278 of Boat.c. -/
def stopBoat (b : Boat) : Boat :=
  { b with stop := true, v := { b.v with mag := 0 } }

/-- oceanIceSpeedAdjustmentFactor: lines 280-283 of Boat.c; the `valid`
flag and the ocean data pointer are fused into an Option. -/
def oceanIceSpeedAdjustmentFactor (od : Option OceanData) : ℚ :=
  match od with
  | some ocd => 1 - ocd.ice / 100
  | none => 1

/-- updateCourse: lines 210-257 of Boat.c.  `coin = true` models
`rand_r(&_randSeed) % 2 == 0` (turn left). -/
def updateCourse (env : Env) (coin : Bool) (b : Boat) (s : ℚ) : Boat :=
  let courseDiff := env.compassDiff b.v.angle b.desiredCourse
  let courseChangeRate := env.courseChangeRate b.boatType
  if |courseDiff| ≤ courseChangeRate * s then
    { b with v := { b.v with angle := b.desiredCourse } }
  else
    let a :=
      if courseDiff < 0 ∧ courseDiff ≥ -179 then
        b.v.angle - courseChangeRate * s
      else if courseDiff > 0 ∧ courseDiff ≤ 179 then
        b.v.angle + courseChangeRate * s
      else if coin then
        b.v.angle - courseChangeRate * s
      else
        b.v.angle + courseChangeRate * s
    let a1 := if a < 0 then a + 360 else if a ≥ 360 then a - 360 else a
    { b with v := { b.v with angle := a1 } }

/-- updateVelocity: lines 259-272 of Boat.c. -/
def updateVelocity (env : Env) (b : Boat) (s : ℚ) (od : Option OceanData) : Boat :=
  let wind := env.weatherGet b.pos
  let angleFromWind := env.compassDiff wind.angle b.v.angle
  let spd := env.boatSpeed wind.mag angleFromWind b.boatType * oceanIceSpeedAdjustmentFactor od
  let speedChangeResponse := env.speedChangeResponse b.boatType
  { b with v := { b.v with mag := (speedChangeResponse * b.v.mag + s * spd) / (speedChangeResponse + s) } }

/-- The while loop of Boat_isHeadingTowardWater (lines 195-204 of Boat.c):
`d` is the loop counter, stepped by 10 up to MOVE_TO_WATER_DISTANCE + 10. -/
def headingTowardWaterFrom (env : Env) (v : GeoVec) (pos : GeoPos) (d : ℕ) : Bool :=
  if d ≤ MOVE_TO_WATER_DISTANCE + 10 then
    if env.isWater pos then true
    else headingTowardWaterFrom env v (env.advancePos pos v) (d + 10)
  else false
termination_by MOVE_TO_WATER_DISTANCE + 20 - d
decreasing_by
  simp only [MOVE_TO_WATER_DISTANCE] at *
  omega

/-- Boat_isHeadingTowardWater: lines 184-207 of Boat.c; the probed vector
points along the desired course with magnitude 10. -/
def Boat_isHeadingTowardWater (env : Env) (b : Boat) : Bool :=
  headingTowardWaterFrom env ⟨b.desiredCourse, 10⟩ b.pos 0

/-- Position integration and distance accounting: lines 155-175 of Boat.c.
The velocity-over-water displacement (velocity scaled by `s`) is applied
first; when ocean data is valid the scaled current is applied next and
`distanceTravelled` grows by the magnitude of the vector sum of the scaled
current and the scaled velocity, otherwise by `|v.mag|`. -/
def advanceIntegrate (env : Env) (b : Boat) (s : ℚ) (od : Option OceanData) : Boat :=
  let v : GeoVec := ⟨b.v.angle, b.v.mag * s⟩
  let b1 := { b with pos := env.advancePos b.pos v }
  match od with
  | some ocd =>
    let cur : GeoVec := ⟨ocd.current.angle, ocd.current.mag * s⟩
    let b2 := { b1 with pos := env.advancePos b1.pos cur }
    { b2 with distanceTravelled := b2.distanceTravelled + (env.vecAdd cur v).mag }
  | none =>
    { b1 with distanceTravelled := b1.distanceTravelled + |v.mag| }

/-- Boat_advance: lines 74-182 of Boat.c.  The nested
`if (movingToSea) { if (isWater) {...} else {...; return} }` of the C code
is flattened: the early-returning land branch is the
`movingToSea && !isWater` case, and otherwise the fall-through state `b1`
carries the flag-clearing (and possible one-time course snap) performed
when a movingToSea boat finds itself on water. -/
def Boat_advance (env : Env) (coin : Bool) (b : Boat) (s : ℚ) : Boat :=
  if b.stop then b
  else if (b.pos.lat ≥ 90 - FORBIDDEN_LAT) ∨ (b.pos.lat ≤ -90 + FORBIDDEN_LAT) then
    stopBoat b
  else if b.movingToSea && !(env.isWater b.pos) then
    if Boat_isHeadingTowardWater env b then
      let v : GeoVec := ⟨b.desiredCourse, s * (1/2)⟩
      { b with v := v, pos := env.advancePos b.pos v }
    else
      stopBoat b
  else
    let b1 :=
      if b.movingToSea then
        if b.setImmediateDesiredCourse then
          { b with movingToSea := false, setImmediateDesiredCourse := false,
                   v := { b.v with angle := b.desiredCourse } }
        else
          { b with movingToSea := false }
      else b
    let od := env.oceanGet b1.pos
    let b2 :=
      if b1.sailsDown then
        let wind := env.weatherGet b1.pos
        let a := wind.angle + 180
        let a1 := if a ≥ 360 then a - 360 else a
        { b1 with v := ⟨a1, wind.mag * (1/10) * oceanIceSpeedAdjustmentFactor od⟩ }
      else
        updateVelocity env (updateCourse env coin b1 s) s od
    let b3 := advanceIntegrate env b2 s od
    if env.isWater b3.pos then b3 else stopBoat b3

/-! ### Concrete environments and boats used to instantiate the theorems -/

/-- An all-water environment with constant external data, rich enough to
satisfy the collaborator contracts (compass difference in `(-180, 180]`,
wind angle in `[0, 360)`, nonnegative vector-sum magnitudes). -/
def envW : Env :=
  { isWater := fun _ => true
    oceanGet := fun _ => none
    weatherGet := fun _ => ⟨0, 10⟩
    advancePos := fun p _ => p
    vecAdd := fun _ _ => ⟨0, 0⟩
    compassDiff := fun _ _ => 0
    courseChangeRate := fun _ => 5
    boatSpeed := fun _ _ _ => 7
    speedChangeResponse := fun _ => 1 }

/-- A boat started at the north pole (latitude 90). -/
def boatPolar : Boat := { Boat_new 90 0 0 with stop := false }

/-! ### C1: a stopped boat is left unchanged -/

/-- C1: for every vessel state with `stop = true` and every elapsed time,
`Boat_advance` returns the state unchanged in every field, and hence any
number of successive ticks leaves it unchanged (in particular no tick ever
clears `stop`). -/
theorem stopped_tick_noop (env : Env) (coin : Bool) (b : Boat) (s : ℚ)
    (h : b.stop = true) :
    Boat_advance env coin b s = b ∧
    ∀ n : ℕ, (fun x => Boat_advance env coin x s)^[n] b = b := by
  have h1 : Boat_advance env coin b s = b := by
    unfold Boat_advance
    simp [h]
  refine ⟨h1, ?_⟩
  intro n
  induction n with
  | zero => rfl
  | succ n ih => rw [Function.iterate_succ_apply]; simpa [h1] using ih

/-- Witness for C1 at a freshly constructed (stopped) boat. -/
theorem stopped_tick_noop_witness :
    (Boat_new 0 0 0).stop = true ∧
    (Boat_advance envW true (Boat_new 0 0 0) 1 = Boat_new 0 0 0 ∧
     ∀ n : ℕ, (fun x => Boat_advance envW true x 1)^[n] (Boat_new 0 0 0) = Boat_new 0 0 0) :=
  ⟨rfl, stopped_tick_noop envW true (Boat_new 0 0 0) 1 rfl⟩

/-! ### C2: the polar guard forces a stop -/

/-- C2: a non-stopped boat whose latitude is within the polar guard margin
is force-stopped by one tick: `stop` becomes true, `v.mag` becomes 0, and
every other field (position, heading angle, desired course, distance
travelled, mode flags) is unchanged, regardless of the other flags or any
external-service data. -/
theorem polar_margin_forces_stop (env : Env) (coin : Bool) (b : Boat) (s : ℚ)
    (hstop : b.stop = false)
    (hpolar : (b.pos.lat ≥ 90 - FORBIDDEN_LAT) ∨ (b.pos.lat ≤ -90 + FORBIDDEN_LAT)) :
    Boat_advance env coin b s = { b with stop := true, v := { b.v with mag := 0 } } := by
  unfold Boat_advance
  rw [if_neg (by simp [hstop]), if_pos hpolar]
  rfl

/-- Witness for C2 at a boat sitting exactly on the north pole. -/
theorem polar_margin_forces_stop_witness :
    boatPolar.stop = false ∧
    ((boatPolar.pos.lat ≥ 90 - FORBIDDEN_LAT) ∨ (boatPolar.pos.lat ≤ -90 + FORBIDDEN_LAT)) ∧
    Boat_advance envW true boatPolar 1 =
      { boatPolar with stop := true, v := { boatPolar.v with mag := 0 } } :=
  ⟨rfl, by norm_num [boatPolar, Boat_new, FORBIDDEN_LAT],
   polar_margin_forces_stop envW true boatPolar 1 rfl
     (by norm_num [boatPolar, Boat_new, FORBIDDEN_LAT])⟩

/-! ### C9: what Boat_new actually initializes -/

/-- C9 counterexample: the constructor takes no activation choice and always
returns `stop = true`; at the concrete input (0, 0, 0) the freshly built
boat is stopped, so construction does force `stop`, contrary to the claim
that the initial stopped flag is chosen by the caller. -/
theorem boat_new_forces_stopped_cx : (Boat_new 0 0 0).stop = true := rfl

/-- C9 amended: `Boat_new lat lon type` returns the given position and
category with zero velocity, zero desired course and zero distance
travelled, and always initializes `stop = true` (no caller choice), with
`sailsDown = false`, `movingToSea = false`,
`setImmediateDesiredCourse = true`. -/
theorem boat_new_fields (lat lon : ℚ) (t : ℤ) :
    Boat_new lat lon t =
      { pos := ⟨lat, lon⟩, v := ⟨0, 0⟩, desiredCourse := 0, distanceTravelled := 0,
        boatType := t, stop := true, sailsDown := false, movingToSea := false,
        setImmediateDesiredCourse := true } := rfl

/-! ### The land-approach probe path (claims C8 and C10) -/

/-- On a non-stopped, non-polar boat with `movingToSea` set whose position
is classified as land, the tick reduces to the probe branch: move toward
water at `s * 0.5` along the desired course, or force-stop. -/
lemma advance_probe_branch (env : Env) (coin : Bool) (b : Boat) (s : ℚ)
    (hstop : b.stop = false)
    (hpolar : ¬((b.pos.lat ≥ 90 - FORBIDDEN_LAT) ∨ (b.pos.lat ≤ -90 + FORBIDDEN_LAT)))
    (hmts : b.movingToSea = true) (hland : env.isWater b.pos = false) :
    Boat_advance env coin b s =
      if Boat_isHeadingTowardWater env b then
        { b with v := ⟨b.desiredCourse, s * (1/2)⟩,
                 pos := env.advancePos b.pos ⟨b.desiredCourse, s * (1/2)⟩ }
      else stopBoat b := by
  unfold Boat_advance
  rw [if_neg (by simp [hstop]), if_neg hpolar, if_pos (by simp [hmts, hland])]

/-- The probe loop starting at counter `d` finds water exactly when one of
the remaining `m` samples (where `d + 10 * m = 120`) along the probed
vector is water. -/
lemma headingTowardWaterFrom_eq_true_iff (env : Env) (v : GeoVec) :
    ∀ (m : ℕ) (pos : GeoPos) (d : ℕ), d + 10 * m = MOVE_TO_WATER_DISTANCE + 20 →
      (headingTowardWaterFrom env v pos d = true ↔
        ∃ k, k < m ∧ env.isWater ((fun p => env.advancePos p v)^[k] pos) = true) := by
  intro m
  induction m with
  | zero =>
    intro pos d hd
    rw [headingTowardWaterFrom,
        if_neg (by simp only [MOVE_TO_WATER_DISTANCE] at hd ⊢; omega)]
    simp
  | succ m ih =>
    intro pos d hd
    rw [headingTowardWaterFrom,
        if_pos (show d ≤ MOVE_TO_WATER_DISTANCE + 10 by
          simp only [MOVE_TO_WATER_DISTANCE] at hd ⊢; omega)]
    cases hw : env.isWater pos with
    | true =>
      exact iff_of_true (by simp [hw]) ⟨0, Nat.succ_pos m, by simpa using hw⟩
    | false =>
      rw [if_neg (by simp [hw]),
          ih (env.advancePos pos v) (d + 10) (by omega)]
      constructor
      · rintro ⟨k, hk, hkw⟩
        exact ⟨k + 1, by omega, by rw [Function.iterate_succ_apply]; exact hkw⟩
      · rintro ⟨k, hk, hkw⟩
        cases k with
        | zero => simp [hw] at hkw
        | succ k =>
          exact ⟨k, by omega, by rw [Function.iterate_succ_apply] at hkw; exact hkw⟩

/-- Boat_isHeadingTowardWater succeeds exactly when one of the 12 samples
(at distances 0, 10, ..., 110 along the desired course) is water. -/
lemma isHeadingTowardWater_iff (env : Env) (b : Boat) :
    Boat_isHeadingTowardWater env b = true ↔
      ∃ k, k < 12 ∧
        env.isWater ((fun p => env.advancePos p ⟨b.desiredCourse, 10⟩)^[k] b.pos) = true := by
  unfold Boat_isHeadingTowardWater
  exact headingTowardWaterFrom_eq_true_iff env _ 12 b.pos 0 (by simp [MOVE_TO_WATER_DISTANCE])

/-- C8: on a non-stopped, non-polar, `movingToSea` boat still on land, the
probe samples at distances 0, 10, ..., 110 along the desired course and
succeeds exactly when some sample is water; on success the tick sets the
heading to the desired course, the speed to `s * 0.5`, advances the
position once by that vector and does nothing else; on failure it
force-stops the boat. -/
theorem land_probe_tick (env : Env) (coin : Bool) (b : Boat) (s : ℚ)
    (hstop : b.stop = false)
    (hpolar : ¬((b.pos.lat ≥ 90 - FORBIDDEN_LAT) ∨ (b.pos.lat ≤ -90 + FORBIDDEN_LAT)))
    (hmts : b.movingToSea = true) (hland : env.isWater b.pos = false) :
    (Boat_isHeadingTowardWater env b = true ↔
      ∃ k, k < 12 ∧
        env.isWater ((fun p => env.advancePos p ⟨b.desiredCourse, 10⟩)^[k] b.pos) = true) ∧
    (Boat_isHeadingTowardWater env b = true →
      Boat_advance env coin b s =
        { b with v := ⟨b.desiredCourse, s * (1/2)⟩,
                 pos := env.advancePos b.pos ⟨b.desiredCourse, s * (1/2)⟩ }) ∧
    (Boat_isHeadingTowardWater env b = false →
      Boat_advance env coin b s = stopBoat b) := by
  refine ⟨isHeadingTowardWater_iff env b, ?_, ?_⟩ <;> intro hp <;>
    rw [advance_probe_branch env coin b s hstop hpolar hmts hland] <;> simp [hp]

/-- C10: on the successful probe path the tick changes only the position
and the velocity vector: `distanceTravelled` does not grow even though the
boat moves, and the `stop` / `sailsDown` / `movingToSea` /
`setImmediateDesiredCourse` flags, the desired course and the category are
all untouched. -/
theorem land_probe_frame (env : Env) (coin : Bool) (b : Boat) (s : ℚ)
    (hstop : b.stop = false)
    (hpolar : ¬((b.pos.lat ≥ 90 - FORBIDDEN_LAT) ∨ (b.pos.lat ≤ -90 + FORBIDDEN_LAT)))
    (hmts : b.movingToSea = true) (hland : env.isWater b.pos = false)
    (hw : Boat_isHeadingTowardWater env b = true) :
    (Boat_advance env coin b s).distanceTravelled = b.distanceTravelled ∧
    (Boat_advance env coin b s).stop = b.stop ∧
    (Boat_advance env coin b s).movingToSea = b.movingToSea ∧
    (Boat_advance env coin b s).sailsDown = b.sailsDown ∧
    (Boat_advance env coin b s).setImmediateDesiredCourse = b.setImmediateDesiredCourse ∧
    (Boat_advance env coin b s).desiredCourse = b.desiredCourse ∧
    (Boat_advance env coin b s).boatType = b.boatType ∧
    (Boat_advance env coin b s).v.angle = b.desiredCourse ∧
    (Boat_advance env coin b s).v.mag = s * (1/2) ∧
    (Boat_advance env coin b s).pos = env.advancePos b.pos ⟨b.desiredCourse, s * (1/2)⟩ := by
  rw [advance_probe_branch env coin b s hstop hpolar hmts hland]
  simp [hw]

/-- A land-then-water environment: only latitude 0 is land, and advancing a
position adds the vector's magnitude to its latitude. -/
def envLand : Env :=
  { envW with
    isWater := fun p => decide (p.lat ≠ 0)
    advancePos := fun p v => ⟨p.lat + v.mag, p.lon⟩ }

/-- A non-stopped boat on land (latitude 0) that is moving to sea. -/
def boatLand : Boat := { Boat_new 0 0 0 with stop := false, movingToSea := true }

/-- Witness for C8 on a boat one probe step away from water. -/
theorem land_probe_tick_witness :
    boatLand.stop = false ∧
    ¬((boatLand.pos.lat ≥ 90 - FORBIDDEN_LAT) ∨ (boatLand.pos.lat ≤ -90 + FORBIDDEN_LAT)) ∧
    boatLand.movingToSea = true ∧ envLand.isWater boatLand.pos = false ∧
    ((Boat_isHeadingTowardWater envLand boatLand = true ↔
      ∃ k, k < 12 ∧
        envLand.isWater
          ((fun p => envLand.advancePos p ⟨boatLand.desiredCourse, 10⟩)^[k] boatLand.pos) = true) ∧
     (Boat_isHeadingTowardWater envLand boatLand = true →
      Boat_advance envLand true boatLand 1 =
        { boatLand with v := ⟨boatLand.desiredCourse, 1 * (1/2)⟩,
                        pos := envLand.advancePos boatLand.pos ⟨boatLand.desiredCourse, 1 * (1/2)⟩ }) ∧
     (Boat_isHeadingTowardWater envLand boatLand = false →
      Boat_advance envLand true boatLand 1 = stopBoat boatLand)) :=
  ⟨rfl, by norm_num [boatLand, Boat_new, FORBIDDEN_LAT], rfl,
   by norm_num [envLand, boatLand, Boat_new],
   land_probe_tick envLand true boatLand 1 rfl
     (by norm_num [boatLand, Boat_new, FORBIDDEN_LAT]) rfl
     (by norm_num [envLand, boatLand, Boat_new])⟩

/-- Witness for C10 on the same boat; the probe succeeds at the second
sample (10 units out, latitude 10). -/
theorem land_probe_frame_witness :
    boatLand.stop = false ∧
    ¬((boatLand.pos.lat ≥ 90 - FORBIDDEN_LAT) ∨ (boatLand.pos.lat ≤ -90 + FORBIDDEN_LAT)) ∧
    boatLand.movingToSea = true ∧ envLand.isWater boatLand.pos = false ∧
    Boat_isHeadingTowardWater envLand boatLand = true ∧
    ((Boat_advance envLand true boatLand 1).distanceTravelled = boatLand.distanceTravelled ∧
     (Boat_advance envLand true boatLand 1).stop = boatLand.stop ∧
     (Boat_advance envLand true boatLand 1).movingToSea = boatLand.movingToSea ∧
     (Boat_advance envLand true boatLand 1).sailsDown = boatLand.sailsDown ∧
     (Boat_advance envLand true boatLand 1).setImmediateDesiredCourse =
       boatLand.setImmediateDesiredCourse ∧
     (Boat_advance envLand true boatLand 1).desiredCourse = boatLand.desiredCourse ∧
     (Boat_advance envLand true boatLand 1).boatType = boatLand.boatType ∧
     (Boat_advance envLand true boatLand 1).v.angle = boatLand.desiredCourse ∧
     (Boat_advance envLand true boatLand 1).v.mag = 1 * (1/2) ∧
     (Boat_advance envLand true boatLand 1).pos =
       envLand.advancePos boatLand.pos ⟨boatLand.desiredCourse, 1 * (1/2)⟩) :=
  ⟨rfl, by norm_num [boatLand, Boat_new, FORBIDDEN_LAT], rfl,
   by norm_num [envLand, boatLand, Boat_new],
   (isHeadingTowardWater_iff envLand boatLand).mpr
     ⟨1, by norm_num, by norm_num [envLand, boatLand, Boat_new]⟩,
   land_probe_frame envLand true boatLand 1 rfl
     (by norm_num [boatLand, Boat_new, FORBIDDEN_LAT]) rfl
     (by norm_num [envLand, boatLand, Boat_new])
     ((isHeadingTowardWater_iff envLand boatLand).mpr
       ⟨1, by norm_num, by norm_num [envLand, boatLand, Boat_new]⟩)⟩

/-! ### Heading controller lemmas (claims C3 and C4) -/

/-- The single-step normalization of lines 249-256 of Boat.c maps any angle
in `[-360, 720)` into `[0, 360)`. -/
lemma normalizeStep_mem (x : ℚ) (h1 : -360 ≤ x) (h2 : x < 720) :
    0 ≤ (if x < 0 then x + 360 else if x ≥ 360 then x - 360 else x) ∧
    (if x < 0 then x + 360 else if x ≥ 360 then x - 360 else x) < 360 := by
  split_ifs with hx hx2 <;> constructor <;> linarith

/-- updateCourse changes only the heading angle. -/
lemma updateCourse_frame (env : Env) (coin : Bool) (b : Boat) (s : ℚ) :
    (updateCourse env coin b s).pos = b.pos ∧
    (updateCourse env coin b s).v.mag = b.v.mag ∧
    (updateCourse env coin b s).desiredCourse = b.desiredCourse ∧
    (updateCourse env coin b s).boatType = b.boatType ∧
    (updateCourse env coin b s).sailsDown = b.sailsDown := by
  unfold updateCourse
  by_cases h : |env.compassDiff b.v.angle b.desiredCourse| ≤ env.courseChangeRate b.boatType * s
  · rw [if_pos h]; exact ⟨rfl, rfl, rfl, rfl, rfl⟩
  · rw [if_neg h]; exact ⟨rfl, rfl, rfl, rfl, rfl⟩

/-- The heading written by updateCourse, as an explicit formula. -/
lemma updateCourse_angle_eq (env : Env) (coin : Bool) (b : Boat) (s : ℚ) :
    (updateCourse env coin b s).v.angle =
      (if |env.compassDiff b.v.angle b.desiredCourse| ≤ env.courseChangeRate b.boatType * s then
        b.desiredCourse
      else
        let cd := env.compassDiff b.v.angle b.desiredCourse
        let r := env.courseChangeRate b.boatType * s
        let a := if cd < 0 ∧ cd ≥ -179 then b.v.angle - r
                 else if cd > 0 ∧ cd ≤ 179 then b.v.angle + r
                 else if coin then b.v.angle - r
                 else b.v.angle + r
        if a < 0 then a + 360 else if a ≥ 360 then a - 360 else a) := by
  unfold updateCourse
  by_cases h : |env.compassDiff b.v.angle b.desiredCourse| ≤ env.courseChangeRate b.boatType * s
  · rw [if_pos h, if_pos h]
  · rw [if_neg h, if_neg h]

/-- If the shortest angular difference is within `turnRate * dt`, the
heading snaps exactly to the desired course. -/
lemma updateCourse_snap (env : Env) (coin : Bool) (b : Boat) (s : ℚ)
    (h : |env.compassDiff b.v.angle b.desiredCourse| ≤ env.courseChangeRate b.boatType * s) :
    (updateCourse env coin b s).v.angle = b.desiredCourse := by
  rw [updateCourse_angle_eq, if_pos h]

/-- Outside the near-opposite region the result of updateCourse is
independent of the random draw. -/
lemma updateCourse_coin_indep (env : Env) (b : Boat) (s : ℚ)
    (hrate : 0 ≤ env.courseChangeRate b.boatType * s)
    (h : ¬(env.courseChangeRate b.boatType * s < |env.compassDiff b.v.angle b.desiredCourse| ∧
           (env.compassDiff b.v.angle b.desiredCourse < -179 ∨
            179 < env.compassDiff b.v.angle b.desiredCourse))) :
    updateCourse env true b s = updateCourse env false b s := by
  by_cases hsnap : |env.compassDiff b.v.angle b.desiredCourse| ≤
      env.courseChangeRate b.boatType * s
  · simp [updateCourse, hsnap]
  · have hr : env.courseChangeRate b.boatType * s <
        |env.compassDiff b.v.angle b.desiredCourse| := not_le.mp hsnap
    have hbounds : -179 ≤ env.compassDiff b.v.angle b.desiredCourse ∧
        env.compassDiff b.v.angle b.desiredCourse ≤ 179 := by
      rcases not_and_or.mp h with hc | hc
      · exact absurd hr hc
      · push_neg at hc
        exact hc
    have hne : env.compassDiff b.v.angle b.desiredCourse ≠ 0 := by
      intro h0
      rw [h0] at hsnap
      simp only [abs_zero] at hsnap
      exact hsnap hrate
    rcases lt_or_gt_of_ne hne with hlt | hgt
    · simp [updateCourse, hsnap, hlt, hbounds.1]
    · have hnlt : ¬(env.compassDiff b.v.angle b.desiredCourse < 0) :=
        not_lt.mpr (le_of_lt hgt)
      simp [updateCourse, hsnap, hnlt, hgt, hbounds.2]

/-- Under the collaborator contracts (compass difference in `(-180, 180]`,
nonnegative `turnRate * dt`) and headings in `[0, 360)`, updateCourse
returns a heading in `[0, 360)`. -/
lemma updateCourse_angle_mem (env : Env) (coin : Bool) (b : Boat) (s : ℚ)
    (ha0 : 0 ≤ b.v.angle) (ha1 : b.v.angle < 360)
    (hd0 : 0 ≤ b.desiredCourse) (hd1 : b.desiredCourse < 360)
    (hdiff : -180 < env.compassDiff b.v.angle b.desiredCourse ∧
             env.compassDiff b.v.angle b.desiredCourse ≤ 180)
    (hrate : 0 ≤ env.courseChangeRate b.boatType * s) :
    0 ≤ (updateCourse env coin b s).v.angle ∧ (updateCourse env coin b s).v.angle < 360 := by
  rw [updateCourse_angle_eq]
  by_cases hsnap : |env.compassDiff b.v.angle b.desiredCourse| ≤
      env.courseChangeRate b.boatType * s
  · rw [if_pos hsnap]
    exact ⟨hd0, hd1⟩
  · rw [if_neg hsnap]
    have h180 : |env.compassDiff b.v.angle b.desiredCourse| ≤ 180 :=
      abs_le.mpr ⟨le_of_lt hdiff.1, hdiff.2⟩
    have hrlt : env.courseChangeRate b.boatType * s < 180 :=
      lt_of_lt_of_le (not_le.mp hsnap) h180
    refine normalizeStep_mem _ ?_ ?_ <;> split_ifs <;> linarith

/-! ### Structural lemmas about the tail of the tick -/

/-- updateVelocity changes only the speed magnitude. -/
lemma updateVelocity_frame (env : Env) (b : Boat) (s : ℚ) (od : Option OceanData) :
    (updateVelocity env b s od).v.angle = b.v.angle ∧
    (updateVelocity env b s od).pos = b.pos ∧
    (updateVelocity env b s od).distanceTravelled = b.distanceTravelled ∧
    (updateVelocity env b s od).stop = b.stop := by
  unfold updateVelocity
  simp

/-- Position integration does not touch the velocity vector, the flags or
the category. -/
lemma advanceIntegrate_frame (env : Env) (b : Boat) (s : ℚ) (od : Option OceanData) :
    (advanceIntegrate env b s od).v = b.v ∧
    (advanceIntegrate env b s od).stop = b.stop ∧
    (advanceIntegrate env b s od).desiredCourse = b.desiredCourse ∧
    (advanceIntegrate env b s od).boatType = b.boatType := by
  unfold advanceIntegrate
  cases od <;> simp

/-- The post-move grounding re-check never changes the heading angle. -/
lemma groundCheck_angle (env : Env) (x : Boat) :
    (if env.isWater x.pos then x else stopBoat x).v.angle = x.v.angle := by
  split <;> rfl

/-- If the boat is not stopped after the grounding re-check, the re-check
did not touch the speed either. -/
lemma groundCheck_mag_of_stop_false (env : Env) (x : Boat)
    (h : (if env.isWater x.pos then x else stopBoat x).stop = false) :
    (if env.isWater x.pos then x else stopBoat x).v.mag = x.v.mag := by
  by_cases hw : env.isWater x.pos = true
  · rw [if_pos hw]
  · rw [if_neg hw] at h ⊢
    simp [stopBoat] at h

/-- C3: on every tick of a non-stopped vessel — under the collaborator
contracts that the stored heading, the stored desired course and every
wind angle lie in `[0, 360)`, that the compass difference lies in
`(-180, 180]`, and that `turnRate * dt` is nonnegative (a tick has positive
`dt` and a physical turn rate) — the resulting heading lies in `[0, 360)`,
whichever of the paths (polar stop, land probe, probe stop, sails-down
drift, heading controller, grounding stop) the tick takes. -/
theorem heading_in_range (env : Env) (coin : Bool) (b : Boat) (s : ℚ)
    (hstop : b.stop = false)
    (ha0 : 0 ≤ b.v.angle) (ha1 : b.v.angle < 360)
    (hd0 : 0 ≤ b.desiredCourse) (hd1 : b.desiredCourse < 360)
    (hwind : ∀ p, 0 ≤ (env.weatherGet p).angle ∧ (env.weatherGet p).angle < 360)
    (hdiff : ∀ x y, -180 < env.compassDiff x y ∧ env.compassDiff x y ≤ 180)
    (hrate : 0 ≤ env.courseChangeRate b.boatType * s) :
    0 ≤ (Boat_advance env coin b s).v.angle ∧ (Boat_advance env coin b s).v.angle < 360 := by
  unfold Boat_advance
  rw [if_neg (by simp [hstop])]
  by_cases hp : (b.pos.lat ≥ 90 - FORBIDDEN_LAT) ∨ (b.pos.lat ≤ -90 + FORBIDDEN_LAT)
  · rw [if_pos hp]
    exact ⟨ha0, ha1⟩
  · rw [if_neg hp]
    by_cases hm : (b.movingToSea && !(env.isWater b.pos)) = true
    · rw [if_pos hm]
      by_cases hw : Boat_isHeadingTowardWater env b = true
      · rw [if_pos hw]
        exact ⟨hd0, hd1⟩
      · rw [if_neg hw]
        exact ⟨ha0, ha1⟩
    · rw [if_neg hm]
      -- abbreviate the fall-through state
      set b1 := (if b.movingToSea then
          if b.setImmediateDesiredCourse then
            { b with movingToSea := false, setImmediateDesiredCourse := false,
                     v := { b.v with angle := b.desiredCourse } }
          else { b with movingToSea := false }
        else b) with hb1
      have hb1a : 0 ≤ b1.v.angle ∧ b1.v.angle < 360 := by
        rw [hb1]; split_ifs <;> exact ⟨by assumption, by assumption⟩
      have hb1d : b1.desiredCourse = b.desiredCourse := by
        rw [hb1]; split_ifs <;> rfl
      have hb1t : b1.boatType = b.boatType := by
        rw [hb1]; split_ifs <;> rfl
      simp only []
      rw [groundCheck_angle, (advanceIntegrate_frame _ _ _ _).1]
      by_cases hsd : b1.sailsDown = true
      · rw [if_pos hsd]
        rcases hwind b1.pos with ⟨hw0, hw1⟩
        simp only []
        split_ifs <;> constructor <;> linarith
      · rw [if_neg hsd]
        rw [(updateVelocity_frame _ _ _ _).1]
        refine updateCourse_angle_mem env coin b1 s hb1a.1 hb1a.2 ?_ ?_ ?_ ?_
        · rw [hb1d]; exact hd0
        · rw [hb1d]; exact hd1
        · exact hdiff _ _
        · rw [hb1t]; exact hrate

/-- A non-stopped boat in open water at a benign latitude. -/
def boatSail : Boat := { Boat_new 10 20 0 with stop := false }

/-- Witness for C3 on a plain sailing boat in the all-water environment. -/
theorem heading_in_range_witness :
    boatSail.stop = false ∧
    (0 ≤ boatSail.v.angle) ∧ boatSail.v.angle < 360 ∧
    (0 ≤ boatSail.desiredCourse) ∧ boatSail.desiredCourse < 360 ∧
    (∀ p, 0 ≤ (envW.weatherGet p).angle ∧ (envW.weatherGet p).angle < 360) ∧
    (∀ x y, -180 < envW.compassDiff x y ∧ envW.compassDiff x y ≤ 180) ∧
    0 ≤ envW.courseChangeRate boatSail.boatType * 1 ∧
    (0 ≤ (Boat_advance envW true boatSail 1).v.angle ∧
      (Boat_advance envW true boatSail 1).v.angle < 360) :=
  ⟨rfl, by norm_num [boatSail, Boat_new], by norm_num [boatSail, Boat_new],
   by norm_num [boatSail, Boat_new], by norm_num [boatSail, Boat_new],
   fun p => by norm_num [envW], fun x y => by norm_num [envW],
   by norm_num [envW],
   heading_in_range envW true boatSail 1 rfl
     (by norm_num [boatSail, Boat_new]) (by norm_num [boatSail, Boat_new])
     (by norm_num [boatSail, Boat_new]) (by norm_num [boatSail, Boat_new])
     (fun p => by norm_num [envW]) (fun x y => by norm_num [envW])
     (by norm_num [envW])⟩

/-- On the normal-sailing path (not stopped, not polar, not moving to sea,
sails up) a tick is: heading controller, speed model, integration, and the
grounding re-check. -/
lemma advance_normal_eq (env : Env) (coin : Bool) (b : Boat) (s : ℚ)
    (hstop : b.stop = false)
    (hpolar : ¬((b.pos.lat ≥ 90 - FORBIDDEN_LAT) ∨ (b.pos.lat ≤ -90 + FORBIDDEN_LAT)))
    (hmts : b.movingToSea = false) (hsd : b.sailsDown = false) :
    Boat_advance env coin b s =
      (if env.isWater (advanceIntegrate env
            (updateVelocity env (updateCourse env coin b s) s (env.oceanGet b.pos)) s
            (env.oceanGet b.pos)).pos
       then advanceIntegrate env
            (updateVelocity env (updateCourse env coin b s) s (env.oceanGet b.pos)) s
            (env.oceanGet b.pos)
       else stopBoat (advanceIntegrate env
            (updateVelocity env (updateCourse env coin b s) s (env.oceanGet b.pos)) s
            (env.oceanGet b.pos))) := by
  unfold Boat_advance
  rw [if_neg (by simp [hstop]), if_neg hpolar, if_neg (by simp [hmts])]
  simp [hmts, hsd]

/-- C4: on a normal-sailing tick, (a) whenever the shortest angular
difference between the stored heading and the desired course is within
`turnRate * dt`, the tick snaps the heading exactly to the desired course
(for either random draw); (b) the random tie-break can influence the tick
only when the turn does not snap and the difference is in
`(-180,-179) ∪ (179,180]`: outside that situation the tick's result is
independent of the draw.  Contract assumed: `turnRate * dt` is
nonnegative (a tick has positive `dt` and a physical turn rate). -/
theorem heading_snap_and_tiebreak (env : Env) (b : Boat) (s : ℚ)
    (hstop : b.stop = false)
    (hpolar : ¬((b.pos.lat ≥ 90 - FORBIDDEN_LAT) ∨ (b.pos.lat ≤ -90 + FORBIDDEN_LAT)))
    (hmts : b.movingToSea = false) (hsd : b.sailsDown = false)
    (hrate : 0 ≤ env.courseChangeRate b.boatType * s) :
    (|env.compassDiff b.v.angle b.desiredCourse| ≤ env.courseChangeRate b.boatType * s →
      ∀ coin, (Boat_advance env coin b s).v.angle = b.desiredCourse) ∧
    (¬(env.courseChangeRate b.boatType * s < |env.compassDiff b.v.angle b.desiredCourse| ∧
       (env.compassDiff b.v.angle b.desiredCourse < -179 ∨
        179 < env.compassDiff b.v.angle b.desiredCourse)) →
      Boat_advance env true b s = Boat_advance env false b s) := by
  constructor
  · intro hsnap coin
    rw [advance_normal_eq env coin b s hstop hpolar hmts hsd, groundCheck_angle,
        (advanceIntegrate_frame _ _ _ _).1, (updateVelocity_frame _ _ _ _).1]
    exact updateCourse_snap env coin b s hsnap
  · intro hnt
    rw [advance_normal_eq env true b s hstop hpolar hmts hsd,
        advance_normal_eq env false b s hstop hpolar hmts hsd,
        updateCourse_coin_indep env b s hrate hnt]

/-- Witness for C4 on a boat whose compass difference (0) snaps. -/
theorem heading_snap_and_tiebreak_witness :
    boatSail.stop = false ∧
    ¬((boatSail.pos.lat ≥ 90 - FORBIDDEN_LAT) ∨ (boatSail.pos.lat ≤ -90 + FORBIDDEN_LAT)) ∧
    boatSail.movingToSea = false ∧ boatSail.sailsDown = false ∧
    0 ≤ envW.courseChangeRate boatSail.boatType * 1 ∧
    ((|envW.compassDiff boatSail.v.angle boatSail.desiredCourse| ≤
        envW.courseChangeRate boatSail.boatType * 1 →
      ∀ coin, (Boat_advance envW coin boatSail 1).v.angle = boatSail.desiredCourse) ∧
     (¬(envW.courseChangeRate boatSail.boatType * 1 <
          |envW.compassDiff boatSail.v.angle boatSail.desiredCourse| ∧
        (envW.compassDiff boatSail.v.angle boatSail.desiredCourse < -179 ∨
         179 < envW.compassDiff boatSail.v.angle boatSail.desiredCourse)) →
      Boat_advance envW true boatSail 1 = Boat_advance envW false boatSail 1)) :=
  ⟨rfl, by norm_num [boatSail, Boat_new, FORBIDDEN_LAT], rfl, rfl,
   by norm_num [envW],
   heading_snap_and_tiebreak envW boatSail 1 rfl
     (by norm_num [boatSail, Boat_new, FORBIDDEN_LAT]) rfl rfl
     (by norm_num [envW])⟩

/-! ### C5: the sails-down drift regime -/

/-- C5 (amended): on a sails-down tick of a non-stopped, non-polar vessel
not on the approaching-water-while-on-land path, the new heading is the
wind angle plus 180 reduced modulo 360 (in `[0, 360)` under the wind-angle
contract), outright and independent of the desired course and the previous
velocity; and provided the tick does not end in the grounding force-stop,
the new speed is `windMagnitude * 0.1 * iceFactor`. -/
theorem sails_down_tick (env : Env) (coin : Bool) (b : Boat) (s : ℚ)
    (hstop : b.stop = false)
    (hpolar : ¬((b.pos.lat ≥ 90 - FORBIDDEN_LAT) ∨ (b.pos.lat ≤ -90 + FORBIDDEN_LAT)))
    (hsd : b.sailsDown = true)
    (hmts : b.movingToSea = true → env.isWater b.pos = true)
    (hwind : 0 ≤ (env.weatherGet b.pos).angle ∧ (env.weatherGet b.pos).angle < 360) :
    ((Boat_advance env coin b s).v.angle =
      (if (env.weatherGet b.pos).angle + 180 ≥ 360 then (env.weatherGet b.pos).angle + 180 - 360
       else (env.weatherGet b.pos).angle + 180)) ∧
    (0 ≤ (Boat_advance env coin b s).v.angle ∧ (Boat_advance env coin b s).v.angle < 360) ∧
    ((Boat_advance env coin b s).stop = false →
      (Boat_advance env coin b s).v.mag =
        (env.weatherGet b.pos).mag * (1/10) *
          oceanIceSpeedAdjustmentFactor (env.oceanGet b.pos)) := by
  have hm : (b.movingToSea && !(env.isWater b.pos)) = false := by
    cases hmv : b.movingToSea with
    | false => rfl
    | true => simp [hmts hmv]
  unfold Boat_advance
  rw [if_neg (by simp [hstop]), if_neg hpolar, if_neg (by simp [hm])]
  set b1 := (if b.movingToSea then
      if b.setImmediateDesiredCourse then
        { b with movingToSea := false, setImmediateDesiredCourse := false,
                 v := { b.v with angle := b.desiredCourse } }
      else { b with movingToSea := false }
    else b) with hb1
  have hb1sd : b1.sailsDown = true := by rw [hb1]; split_ifs <;> exact hsd
  have hb1pos : b1.pos = b.pos := by rw [hb1]; split_ifs <;> rfl
  simp only []
  rw [if_pos hb1sd]
  refine ⟨?_, ?_, ?_⟩
  · rw [groundCheck_angle, (advanceIntegrate_frame _ _ _ _).1, hb1pos]
  · rw [groundCheck_angle, (advanceIntegrate_frame _ _ _ _).1, hb1pos]
    rcases hwind with ⟨hw0, hw1⟩
    split_ifs <;> constructor <;> linarith
  · intro hns
    rw [groundCheck_mag_of_stop_false env _ hns, (advanceIntegrate_frame _ _ _ _).1, hb1pos]

/-- An all-land variant of the constant environment. -/
def envGround : Env := { envW with isWater := fun _ => false }

/-- A non-stopped drifting (sails-down) boat at the origin. -/
def boatDrift : Boat := { Boat_new 0 0 0 with stop := false, sailsDown := true }

/-- C5 counterexample: a sails-down tick that runs aground ends with
`v.mag = 0` from the grounding force-stop, not the claimed
`windMagnitude * 0.1 * iceFactor = 1`. -/
theorem sails_down_tick_cx :
    boatDrift.stop = false ∧ boatDrift.sailsDown = true ∧ boatDrift.movingToSea = false ∧
    ¬((boatDrift.pos.lat ≥ 90 - FORBIDDEN_LAT) ∨ (boatDrift.pos.lat ≤ -90 + FORBIDDEN_LAT)) ∧
    (Boat_advance envGround true boatDrift 1).v.mag = 0 ∧
    (envGround.weatherGet boatDrift.pos).mag * (1/10) *
      oceanIceSpeedAdjustmentFactor (envGround.oceanGet boatDrift.pos) = 1 := by
  refine ⟨rfl, rfl, rfl, by norm_num [boatDrift, Boat_new, FORBIDDEN_LAT], ?_,
    by norm_num [envGround, envW, boatDrift, Boat_new, oceanIceSpeedAdjustmentFactor]⟩
  norm_num [Boat_advance, boatDrift, Boat_new, envGround, envW, FORBIDDEN_LAT,
    advanceIntegrate, stopBoat, oceanIceSpeedAdjustmentFactor]

/-- Witness for C5 (amended) in the all-water environment: the boat drifts
at heading 180 and keeps the computed speed. -/
theorem sails_down_tick_witness :
    boatDrift.stop = false ∧
    ¬((boatDrift.pos.lat ≥ 90 - FORBIDDEN_LAT) ∨ (boatDrift.pos.lat ≤ -90 + FORBIDDEN_LAT)) ∧
    boatDrift.sailsDown = true ∧
    (boatDrift.movingToSea = true → envW.isWater boatDrift.pos = true) ∧
    (0 ≤ (envW.weatherGet boatDrift.pos).angle ∧ (envW.weatherGet boatDrift.pos).angle < 360) ∧
    (((Boat_advance envW true boatDrift 1).v.angle =
      (if (envW.weatherGet boatDrift.pos).angle + 180 ≥ 360
       then (envW.weatherGet boatDrift.pos).angle + 180 - 360
       else (envW.weatherGet boatDrift.pos).angle + 180)) ∧
     (0 ≤ (Boat_advance envW true boatDrift 1).v.angle ∧
       (Boat_advance envW true boatDrift 1).v.angle < 360) ∧
     ((Boat_advance envW true boatDrift 1).stop = false →
      (Boat_advance envW true boatDrift 1).v.mag =
        (envW.weatherGet boatDrift.pos).mag * (1/10) *
          oceanIceSpeedAdjustmentFactor (envW.oceanGet boatDrift.pos))) :=
  ⟨rfl, by norm_num [boatDrift, Boat_new, FORBIDDEN_LAT], rfl,
   fun h => absurd h (by norm_num [boatDrift, Boat_new]),
   by norm_num [envW],
   sails_down_tick envW true boatDrift 1 rfl
     (by norm_num [boatDrift, Boat_new, FORBIDDEN_LAT]) rfl
     (fun h => absurd h (by norm_num [boatDrift, Boat_new]))
     (by norm_num [envW])⟩

/-! ### C6: the speed inertia law -/

/-- C6 (amended): on a normal-sailing tick that does not end in the
grounding force-stop, the new speed is
`(tau * oldSpeed + dt * targetSpeed) / (tau + dt)` with
`tau = speedChangeResponse(category)` and
`targetSpeed = boatSpeed(windMag, angleFromWind, category) * iceFactor`,
where `angleFromWind` is computed against the heading already updated by
the heading controller in the same tick. -/
theorem speed_inertia_tick (env : Env) (coin : Bool) (b : Boat) (s : ℚ)
    (hstop : b.stop = false)
    (hpolar : ¬((b.pos.lat ≥ 90 - FORBIDDEN_LAT) ∨ (b.pos.lat ≤ -90 + FORBIDDEN_LAT)))
    (hmts : b.movingToSea = false) (hsd : b.sailsDown = false) :
    (Boat_advance env coin b s).stop = false →
    (Boat_advance env coin b s).v.mag =
      (env.speedChangeResponse b.boatType * b.v.mag +
        s * (env.boatSpeed (env.weatherGet b.pos).mag
              (env.compassDiff (env.weatherGet b.pos).angle (updateCourse env coin b s).v.angle)
              b.boatType * oceanIceSpeedAdjustmentFactor (env.oceanGet b.pos))) /
      (env.speedChangeResponse b.boatType + s) := by
  intro hns
  rw [advance_normal_eq env coin b s hstop hpolar hmts hsd] at hns ⊢
  rw [groundCheck_mag_of_stop_false env _ hns, (advanceIntegrate_frame _ _ _ _).1]
  rcases updateCourse_frame env coin b s with ⟨hpos, hmag, _, htype, _⟩
  simp only [updateVelocity, hpos, hmag, htype]

/-- C6 counterexample: a normal-sailing tick that runs aground ends with
`v.mag = 0` from the force-stop, not the claimed inertia value `7/2`. -/
theorem speed_inertia_tick_cx :
    boatSail.stop = false ∧ boatSail.movingToSea = false ∧ boatSail.sailsDown = false ∧
    ¬((boatSail.pos.lat ≥ 90 - FORBIDDEN_LAT) ∨ (boatSail.pos.lat ≤ -90 + FORBIDDEN_LAT)) ∧
    (Boat_advance envGround true boatSail 1).v.mag = 0 ∧
    (envGround.speedChangeResponse boatSail.boatType * boatSail.v.mag +
      1 * (envGround.boatSpeed (envGround.weatherGet boatSail.pos).mag
            (envGround.compassDiff (envGround.weatherGet boatSail.pos).angle
              (updateCourse envGround true boatSail 1).v.angle)
            boatSail.boatType * oceanIceSpeedAdjustmentFactor (envGround.oceanGet boatSail.pos))) /
      (envGround.speedChangeResponse boatSail.boatType + 1) = 7/2 := by
  refine ⟨rfl, rfl, rfl, by norm_num [boatSail, Boat_new, FORBIDDEN_LAT], ?_,
    by norm_num [envGround, envW, boatSail, Boat_new, oceanIceSpeedAdjustmentFactor]⟩
  norm_num [Boat_advance, boatSail, Boat_new, envGround, envW, FORBIDDEN_LAT,
    updateCourse, updateVelocity, advanceIntegrate, stopBoat, oceanIceSpeedAdjustmentFactor]

/-- Witness for C6 (amended) in the all-water environment. -/
theorem speed_inertia_tick_witness :
    boatSail.stop = false ∧ boatSail.movingToSea = false ∧ boatSail.sailsDown = false ∧
    ¬((boatSail.pos.lat ≥ 90 - FORBIDDEN_LAT) ∨ (boatSail.pos.lat ≤ -90 + FORBIDDEN_LAT)) ∧
    ((Boat_advance envW true boatSail 1).stop = false →
     (Boat_advance envW true boatSail 1).v.mag =
       (envW.speedChangeResponse boatSail.boatType * boatSail.v.mag +
         1 * (envW.boatSpeed (envW.weatherGet boatSail.pos).mag
               (envW.compassDiff (envW.weatherGet boatSail.pos).angle
                 (updateCourse envW true boatSail 1).v.angle)
               boatSail.boatType * oceanIceSpeedAdjustmentFactor (envW.oceanGet boatSail.pos))) /
       (envW.speedChangeResponse boatSail.boatType + 1)) :=
  ⟨rfl, rfl, rfl, by norm_num [boatSail, Boat_new, FORBIDDEN_LAT],
   speed_inertia_tick envW true boatSail 1 rfl
     (by norm_num [boatSail, Boat_new, FORBIDDEN_LAT]) rfl rfl⟩

/-! ### C7: distance accounting -/

/-- The distance increment of the integration phase: the magnitude of the
vector sum of the scaled current and the scaled velocity when ocean data is
valid, the absolute scaled speed otherwise. -/
lemma advanceIntegrate_dist (env : Env) (bb : Boat) (s : ℚ) (od : Option OceanData) :
    (advanceIntegrate env bb s od).distanceTravelled =
      bb.distanceTravelled +
        (match od with
         | some ocd => (env.vecAdd ⟨ocd.current.angle, ocd.current.mag * s⟩
             ⟨bb.v.angle, bb.v.mag * s⟩).mag
         | none => |bb.v.mag * s|) := by
  unfold advanceIntegrate
  cases od <;> simp

/-- The integration phase applies the scaled velocity-over-water
displacement first and, when ocean data is valid, the scaled current
displacement second. -/
lemma advanceIntegrate_pos_eq (env : Env) (bb : Boat) (s : ℚ) (od : Option OceanData) :
    (advanceIntegrate env bb s od).pos =
      (match od with
       | some ocd => env.advancePos (env.advancePos bb.pos ⟨bb.v.angle, bb.v.mag * s⟩)
           ⟨ocd.current.angle, ocd.current.mag * s⟩
       | none => env.advancePos bb.pos ⟨bb.v.angle, bb.v.mag * s⟩) := by
  unfold advanceIntegrate
  cases od <;> simp

/-- The grounding re-check does not change the distance accumulator. -/
lemma groundCheck_dist (env : Env) (x : Boat) :
    (if env.isWater x.pos then x else stopBoat x).distanceTravelled = x.distanceTravelled := by
  split <;> rfl

/-- updateCourse does not change the distance accumulator. -/
lemma updateCourse_dist (env : Env) (coin : Bool) (b : Boat) (s : ℚ) :
    (updateCourse env coin b s).distanceTravelled = b.distanceTravelled := by
  unfold updateCourse
  by_cases h : |env.compassDiff b.v.angle b.desiredCourse| ≤ env.courseChangeRate b.boatType * s
  · rw [if_pos h]
  · rw [if_neg h]

/-- Every tick that reaches the integration phase is the integration (at the
ocean data looked up at the pre-move position) of some mid-tick state with
the same position and distance accumulator, followed by the grounding
re-check. -/
lemma advance_decomp (env : Env) (coin : Bool) (b : Boat) (s : ℚ)
    (hstop : b.stop = false)
    (hpolar : ¬((b.pos.lat ≥ 90 - FORBIDDEN_LAT) ∨ (b.pos.lat ≤ -90 + FORBIDDEN_LAT)))
    (hmts : b.movingToSea = true → env.isWater b.pos = true) :
    ∃ bmid : Boat, bmid.pos = b.pos ∧ bmid.distanceTravelled = b.distanceTravelled ∧
      Boat_advance env coin b s =
        (if env.isWater (advanceIntegrate env bmid s (env.oceanGet b.pos)).pos
         then advanceIntegrate env bmid s (env.oceanGet b.pos)
         else stopBoat (advanceIntegrate env bmid s (env.oceanGet b.pos))) := by
  have hm : (b.movingToSea && !(env.isWater b.pos)) = false := by
    cases hmv : b.movingToSea with
    | false => rfl
    | true => simp [hmts hmv]
  unfold Boat_advance
  rw [if_neg (by simp [hstop]), if_neg hpolar, if_neg (by simp [hm])]
  set b1 := (if b.movingToSea then
      if b.setImmediateDesiredCourse then
        { b with movingToSea := false, setImmediateDesiredCourse := false,
                 v := { b.v with angle := b.desiredCourse } }
      else { b with movingToSea := false }
    else b) with hb1
  have hb1pos : b1.pos = b.pos := by rw [hb1]; split_ifs <;> rfl
  have hb1dist : b1.distanceTravelled = b.distanceTravelled := by
    rw [hb1]; split_ifs <;> rfl
  simp only []
  rw [hb1pos]
  by_cases hsd1 : b1.sailsDown = true
  · rw [if_pos hsd1]
    refine ⟨_, ?_, ?_, rfl⟩
    · rfl
    · exact hb1dist
  · rw [if_neg hsd1]
    refine ⟨_, ?_, ?_, rfl⟩
    · rw [(updateVelocity_frame _ _ _ _).2.1, (updateCourse_frame _ _ _ _).1, hb1pos]
    · rw [(updateVelocity_frame _ _ _ _).2.2.1, updateCourse_dist]
      exact hb1dist

/-- C7: on every tick that reaches the position-integration phase (not
stopped, not polar, not on the land-probe path), `distanceTravelled` never
decreases; the integration phase adds exactly the magnitude of the vector
sum of the scaled current and the scaled velocity-over-water displacement
when ocean data is valid, and the absolute scaled speed alone when it is
invalid, applying the velocity displacement to the position before the
current displacement; and the tick is that integration of a mid-tick state
(same position and accumulator as the pre-tick boat) followed only by the
grounding re-check.  Contract assumed: vector-sum magnitudes are
nonnegative. -/
theorem distance_accounting (env : Env) (coin : Bool) (b : Boat) (s : ℚ)
    (hstop : b.stop = false)
    (hpolar : ¬((b.pos.lat ≥ 90 - FORBIDDEN_LAT) ∨ (b.pos.lat ≤ -90 + FORBIDDEN_LAT)))
    (hmts : b.movingToSea = true → env.isWater b.pos = true)
    (hvec : ∀ u w, 0 ≤ (env.vecAdd u w).mag) :
    b.distanceTravelled ≤ (Boat_advance env coin b s).distanceTravelled ∧
    (∀ (bb : Boat) (od : Option OceanData),
      (advanceIntegrate env bb s od).distanceTravelled =
        bb.distanceTravelled +
          (match od with
           | some ocd => (env.vecAdd ⟨ocd.current.angle, ocd.current.mag * s⟩
               ⟨bb.v.angle, bb.v.mag * s⟩).mag
           | none => |bb.v.mag * s|) ∧
      (advanceIntegrate env bb s od).pos =
        (match od with
         | some ocd => env.advancePos (env.advancePos bb.pos ⟨bb.v.angle, bb.v.mag * s⟩)
             ⟨ocd.current.angle, ocd.current.mag * s⟩
         | none => env.advancePos bb.pos ⟨bb.v.angle, bb.v.mag * s⟩)) ∧
    (∃ bmid : Boat, bmid.pos = b.pos ∧ bmid.distanceTravelled = b.distanceTravelled ∧
      Boat_advance env coin b s =
        (if env.isWater (advanceIntegrate env bmid s (env.oceanGet b.pos)).pos
         then advanceIntegrate env bmid s (env.oceanGet b.pos)
         else stopBoat (advanceIntegrate env bmid s (env.oceanGet b.pos)))) := by
  refine ⟨?_, fun bb od => ⟨advanceIntegrate_dist env bb s od, advanceIntegrate_pos_eq env bb s od⟩,
    advance_decomp env coin b s hstop hpolar hmts⟩
  obtain ⟨bmid, hp, hd, he⟩ := advance_decomp env coin b s hstop hpolar hmts
  rw [he, groundCheck_dist, advanceIntegrate_dist, hd]
  cases env.oceanGet b.pos with
  | none => exact le_add_of_nonneg_right (abs_nonneg _)
  | some ocd => exact le_add_of_nonneg_right (hvec _ _)

/-- Witness for C7 in the all-water environment. -/
theorem distance_accounting_witness :
    boatSail.stop = false ∧
    ¬((boatSail.pos.lat ≥ 90 - FORBIDDEN_LAT) ∨ (boatSail.pos.lat ≤ -90 + FORBIDDEN_LAT)) ∧
    (boatSail.movingToSea = true → envW.isWater boatSail.pos = true) ∧
    (∀ u w, 0 ≤ (envW.vecAdd u w).mag) ∧
    (boatSail.distanceTravelled ≤ (Boat_advance envW true boatSail 1).distanceTravelled ∧
     (∀ (bb : Boat) (od : Option OceanData),
       (advanceIntegrate envW bb 1 od).distanceTravelled =
         bb.distanceTravelled +
           (match od with
            | some ocd => (envW.vecAdd ⟨ocd.current.angle, ocd.current.mag * 1⟩
                ⟨bb.v.angle, bb.v.mag * 1⟩).mag
            | none => |bb.v.mag * 1|) ∧
       (advanceIntegrate envW bb 1 od).pos =
         (match od with
          | some ocd => envW.advancePos (envW.advancePos bb.pos ⟨bb.v.angle, bb.v.mag * 1⟩)
              ⟨ocd.current.angle, ocd.current.mag * 1⟩
          | none => envW.advancePos bb.pos ⟨bb.v.angle, bb.v.mag * 1⟩)) ∧
     (∃ bmid : Boat, bmid.pos = boatSail.pos ∧
        bmid.distanceTravelled = boatSail.distanceTravelled ∧
        Boat_advance envW true boatSail 1 =
          (if envW.isWater (advanceIntegrate envW bmid 1 (envW.oceanGet boatSail.pos)).pos
           then advanceIntegrate envW bmid 1 (envW.oceanGet boatSail.pos)
           else stopBoat (advanceIntegrate envW bmid 1 (envW.oceanGet boatSail.pos))))) :=
  ⟨rfl, by norm_num [boatSail, Boat_new, FORBIDDEN_LAT], fun _ => rfl,
   fun u w => le_refl 0,
   distance_accounting envW true boatSail 1 rfl
     (by norm_num [boatSail, Boat_new, FORBIDDEN_LAT]) (fun _ => rfl) (fun u w => le_refl 0)⟩

end SailNavSim
